import Mathlib

set_option maxHeartbeats 1000000

/-!
Shallow embedding of the azure-devops-exporter sources: the Deployment
metrics collector (metrics_deployment.go) together with the startup logic
(initArgparser, initMetricCollector, startHttpServer in main.go).
Gauge values, unix timestamps and durations are modelled as `Int`;
`*time.Time` getters on a deployment record are modelled as `Option Int`.
-/

/-- Embedding of `int64ToString` (strconv-style rendering of an int64). -/
def int64ToString (v : Int) : String := toString v

/-- The `Release` sub-record of a deployment (fields used by the collector). -/
structure Release where
  Id : Int
  Name : String
deriving DecidableEq

/-- The `ReleaseEnvironment` sub-record of a deployment. -/
structure ReleaseEnvironment where
  Id : Int
  Name : String
deriving DecidableEq

/-- A release deployment record as consumed by `MetricsCollectorDeployment.Collect`.
`RequestedBy` stands for `RequestedBy.DisplayName`; `ApprovedBy` for the
`ApprovedBy()` accessor; `QueuedOn`/`StartedOn`/`CompletedOn` for the
`QueuedOnTime()`/`StartedOnTime()`/`CompletedOnTime()` getters, which return a
possibly-nil time (here: unix seconds). -/
structure Deployment where
  Id : Int
  Release : Release
  RequestedBy : String
  Name : String
  DeploymentStatus : String
  OperationStatus : String
  Reason : String
  Attempt : Int
  ReleaseEnvironment : ReleaseEnvironment
  ApprovedBy : String
  QueuedOn : Option Int
  StartedOn : Option Int
  CompletedOn : Option Int
deriving DecidableEq

/-- A release definition record (fields used by the collector). -/
structure ReleaseDefinition where
  Id : Int
  Name : String
deriving DecidableEq

/-- A discovered project (fields used by the collector). -/
structure Project where
  Id : String
  Name : String
deriving DecidableEq

/-- The label set of the `azure_devops_deployment_info` gauge vector. -/
structure DeploymentLabels where
  projectID : String
  deploymentID : String
  releaseID : String
  releaseName : String
  releaseDefinitionID : String
  requestedBy : String
  deploymentName : String
  deploymentStatus : String
  operationStatus : String
  reason : String
  attempt : String
  environmentId : String
  environmentName : String
  approvedBy : String
deriving DecidableEq

/-- The label set of the `azure_devops_deployment_status` gauge vector. -/
structure DeploymentStatusLabels where
  projectID : String
  deploymentID : String
  type : String
deriving DecidableEq

/-- An API error (the error value returned by the Azure DevOps client). -/
abbrev ApiError := String

/-- The two Azure DevOps client calls used by the Deployment collector.
Each call either returns the record list of the response or an error. -/
structure Api where
  ListReleaseDefinitions : String → Except ApiError (List ReleaseDefinition)
  ListReleaseDeployments : String → Int → Except ApiError (List Deployment)

/-- The label row pushed by `deploymentMetric.AddInfo` for one deployment
(value 1, per the MetricsList AddInfo contract). -/
def deploymentInfoLabels (projectId : String) (releaseDefinition : ReleaseDefinition)
    (deployment : Deployment) : DeploymentLabels :=
  { projectID := projectId
    deploymentID := int64ToString deployment.Id
    releaseID := int64ToString deployment.Release.Id
    releaseName := deployment.Release.Name
    releaseDefinitionID := int64ToString releaseDefinition.Id
    requestedBy := deployment.RequestedBy
    deploymentName := deployment.Name
    deploymentStatus := deployment.DeploymentStatus
    operationStatus := deployment.OperationStatus
    reason := deployment.Reason
    attempt := int64ToString deployment.Attempt
    environmentId := int64ToString deployment.ReleaseEnvironment.Id
    environmentName := deployment.ReleaseEnvironment.Name
    approvedBy := deployment.ApprovedBy }

/-- The rows pushed onto `deploymentStatusMetric` for one deployment record:
an `AddTime` row per present queued/started/completed time, and an
`AddDuration` row (completed minus started) when both ends are present. -/
def deploymentStatusRows (projectId : String) (deployment : Deployment) :
    List (DeploymentStatusLabels × Int) :=
  (match deployment.QueuedOn with
   | some queuedOn =>
     [({ projectID := projectId, deploymentID := int64ToString deployment.Id,
         type := "queued" }, queuedOn)]
   | none => []) ++
  (match deployment.StartedOn with
   | some startedOn =>
     [({ projectID := projectId, deploymentID := int64ToString deployment.Id,
         type := "started" }, startedOn)]
   | none => []) ++
  (match deployment.CompletedOn with
   | some completedOn =>
     [({ projectID := projectId, deploymentID := int64ToString deployment.Id,
         type := "finished" }, completedOn)]
   | none => []) ++
  (match deployment.CompletedOn, deployment.StartedOn with
   | some completedOn, some startedOn =>
     [({ projectID := projectId, deploymentID := int64ToString deployment.Id,
         type := "jobDuration" }, completedOn - startedOn)]
   | _, _ => [])

/-- The release-definition loop of `Collect`: accumulates the two metric lists
across release definitions, aborting the whole collection when a
`ListReleaseDeployments` call errors (the Go code logs and returns). -/
def collectReleaseDefinitions (api : Api) (projectId : String) :
    List ReleaseDefinition → List (DeploymentLabels × Int) →
    List (DeploymentStatusLabels × Int) →
    Except ApiError (List (DeploymentLabels × Int) × List (DeploymentStatusLabels × Int))
  | [], deploymentMetric, deploymentStatusMetric =>
    .ok (deploymentMetric, deploymentStatusMetric)
  | releaseDefinition :: rest, deploymentMetric, deploymentStatusMetric =>
    match api.ListReleaseDeployments projectId releaseDefinition.Id with
    | .error e => .error e
    | .ok deploymentList =>
      collectReleaseDefinitions api projectId rest
        (deploymentMetric ++
          deploymentList.map (fun d => (deploymentInfoLabels projectId releaseDefinition d, 1)))
        (deploymentStatusMetric ++
          deploymentList.flatMap (deploymentStatusRows projectId))

/-- One apply command queued on the callback channel: the closure captures the
two metric lists and, when applied, GaugeSets them onto the two families. -/
structure Command where
  deploymentMetric : List (DeploymentLabels × Int)
  deploymentStatusMetric : List (DeploymentStatusLabels × Int)
deriving DecidableEq

/-- The Registry state owned by the Deployment collector: the current series
of its two gauge vectors (label set → value association lists). -/
structure Registry where
  deployment : List (DeploymentLabels × Int)
  deploymentStatus : List (DeploymentStatusLabels × Int)
deriving DecidableEq

/-- `gauge.With(labels).Set(value)`: overwrite the row of an existing label
set, or add a new row. -/
def setGauge {L : Type} [DecidableEq L] (family : List (L × Int)) (labels : L)
    (value : Int) : List (L × Int) :=
  if family.any (fun row => row.1 = labels) then
    family.map (fun row => if row.1 = labels then (labels, value) else row)
  else
    family ++ [(labels, value)]

/-- `MetricsList.GaugeSet`: apply every row of a metric list to a family. -/
def gaugeSet {L : Type} [DecidableEq L] (family : List (L × Int))
    (rows : List (L × Int)) : List (L × Int) :=
  rows.foldl (fun f row => setGauge f row.1 row.2) family

/-- Applying one queued command to the Registry (the body of the closure sent
on the callback channel: GaugeSet on both families). -/
def applyCommand (registry : Registry) (c : Command) : Registry :=
  { deployment := gaugeSet registry.deployment c.deploymentMetric
    deploymentStatus := gaugeSet registry.deploymentStatus c.deploymentStatusMetric }

namespace MetricsCollectorDeployment

/-- `MetricsCollectorDeployment.Reset`: both gauge vectors are reset, deleting
every series regardless of the previous Registry state. -/
def Reset (_ : Registry) : Registry :=
  { deployment := [], deploymentStatus := [] }

/-- `MetricsCollectorDeployment.Collect` for one project: on any API error it
logs and returns, queuing nothing; on success it queues exactly one command
holding the two metric lists. The Registry is threaded to make explicit that
Collect itself never changes it. -/
def Collect (api : Api) (project : Project) (registry : Registry) :
    Registry × List Command :=
  match api.ListReleaseDefinitions project.Id with
  | .error _ => (registry, [])
  | .ok list =>
    match collectReleaseDefinitions api project.Id list [] [] with
    | .error _ => (registry, [])
    | .ok (deploymentMetric, deploymentStatusMetric) =>
      (registry, [{ deploymentMetric := deploymentMetric
                    deploymentStatusMetric := deploymentStatusMetric }])

end MetricsCollectorDeployment

/-- Whether `Collect` hit an API error for this project (logged and skipped). -/
def collectErrored (api : Api) (project : Project) : Bool :=
  match api.ListReleaseDefinitions project.Id with
  | .error _ => true
  | .ok list =>
    match collectReleaseDefinitions api project.Id list [] [] with
    | .error _ => true
    | .ok _ => false

/-- Modelled from the spec: the collector base (scheduler, fan-out, apply
queue and error counter of §4.3) is not among the sources; per the spec, a
cycle invokes Collect per discovered project, queues the produced commands,
and after the barrier a single worker first invokes the plug-in Reset and
then applies every queued command; the error counter counts failed resources. -/
def runCycle (api : Api) (projects : List Project) (registry : Registry)
    (errorCounter : Nat) : Registry × Nat :=
  let commands := projects.flatMap (fun p => (MetricsCollectorDeployment.Collect api p registry).2)
  (commands.foldl applyCommand (MetricsCollectorDeployment.Reset registry),
   errorCounter + projects.countP (fun p => collectErrored api p))

/-- The rows the deployment-info family currently holds for one project. -/
def deploymentEntriesFor (registry : Registry) (projectId : String) :
    List (DeploymentLabels × Int) :=
  registry.deployment.filter (fun row => row.1.projectID = projectId)

/-- Scenario data (§8 of the spec): an old deployment previously collected for
project C, all optional times absent. -/
def scenarioOldDeployment : Deployment :=
  { Id := 900, Release := { Id := 90, Name := "rel-old" }, RequestedBy := "carol"
    Name := "deploy-old", DeploymentStatus := "succeeded", OperationStatus := "Approved"
    Reason := "manual", Attempt := 1
    ReleaseEnvironment := { Id := 7, Name := "stage" }, ApprovedBy := "dave"
    QueuedOn := none, StartedOn := none, CompletedOn := none }

/-- Scenario data: first deployment returned for project A. -/
def scenarioDeployment1 : Deployment :=
  { Id := 101, Release := { Id := 11, Name := "rel-1" }, RequestedBy := "alice"
    Name := "deploy-1", DeploymentStatus := "succeeded", OperationStatus := "Approved"
    Reason := "automated", Attempt := 1
    ReleaseEnvironment := { Id := 5, Name := "prod" }, ApprovedBy := "bob"
    QueuedOn := none, StartedOn := none, CompletedOn := none }

/-- Scenario data: second deployment returned for project A. -/
def scenarioDeployment2 : Deployment :=
  { Id := 102, Release := { Id := 11, Name := "rel-1" }, RequestedBy := "alice"
    Name := "deploy-2", DeploymentStatus := "succeeded", OperationStatus := "Approved"
    Reason := "automated", Attempt := 2
    ReleaseEnvironment := { Id := 5, Name := "prod" }, ApprovedBy := "bob"
    QueuedOn := none, StartedOn := none, CompletedOn := none }

/-- Scenario API (§8): project A has one release definition with two
deployments, project B has no release definitions, project C errors. -/
def scenarioApi : Api :=
  { ListReleaseDefinitions := fun projectId =>
      if projectId = "A" then .ok [{ Id := 1, Name := "def-1" }]
      else if projectId = "B" then .ok []
      else .error "list release definitions failed"
    ListReleaseDeployments := fun projectId definitionId =>
      if projectId = "A" ∧ definitionId = 1 then
        .ok [scenarioDeployment1, scenarioDeployment2]
      else .ok [] }

/-- Scenario discovery snapshot: projects A, B and C. -/
def scenarioProjects : List Project :=
  [{ Id := "A", Name := "project-a" },
   { Id := "B", Name := "project-b" },
   { Id := "C", Name := "project-c" }]

/-- Scenario Registry before the cycle: one deployment-info series previously
held for project C. -/
def scenarioPrevRegistry : Registry :=
  { deployment := [(deploymentInfoLabels "C" { Id := 90, Name := "rel-old" } scenarioOldDeployment, 1)]
    deploymentStatus := [] }

/-- Scenario API for the inner error path: every project lists its release
definitions fine (project D has one), but the deployments call for any
release definition errors. -/
def scenarioApiInner : Api :=
  { ListReleaseDefinitions := fun projectId =>
      if projectId = "D" then .ok [{ Id := 2, Name := "def-2" }] else .ok []
    ListReleaseDeployments := fun _ _ => .error "list release deployments failed" }

/-- Number of occurrences of a character in a string (`strings.Count` with a
one-character separator). -/
def countChar (s : String) (c : Char) : Nat := s.toList.count c

/-- The query-descriptor validation block of `initArgparser`: for every entry
of `QueriesWithProjects` whose `@`-count differs from one, a message is
printed and the error flag is set; the flag triggers `os.Exit(1)`. Result:
(number of messages printed, whether startup aborts with exit code 1). -/
def checkQueriesWithProjects (queriesWithProjects : Option (List String)) : Nat × Bool :=
  match queriesWithProjects with
  | none => (0, false)
  | some queries =>
    let malformed := queries.filter (fun query => countChar query '@' != 1)
    (malformed.length, !malformed.isEmpty)

/-- The scrape-interval options of `opts.Scrape` (durations as `Int`): the
shared default `Time` plus the per-collector optional intervals. -/
structure ScrapeOpts where
  Time : Int
  TimeProjects : Option Int
  TimeRepository : Option Int
  TimePullRequest : Option Int
  TimeBuild : Option Int
  TimeRelease : Option Int
  TimeDeployment : Option Int
  TimeStats : Option Int
  TimeResourceUsage : Option Int
  TimeQuery : Option Int
deriving DecidableEq

/-- The `opts.Stats` options (durations as `Int`). -/
structure StatsOpts where
  SummaryMaxAge : Option Int
deriving DecidableEq

/-- One `if opts.Scrape.X == nil` fallback assignment of `initArgparser`. -/
def fallbackToDefault (value : Option Int) (defaultValue : Int) : Option Int :=
  match value with
  | none => some defaultValue
  | some v => some v

/-- The default-scrape-time block of `initArgparser` (lines 136-175), in
source order: every unset per-collector interval is pointed at the shared
`opts.Scrape.Time`; `SummaryMaxAge` is pointed at the already-resolved
`TimeStats`; `TimeQuery` is resolved last. -/
def resolveScrapeTimes (scrape : ScrapeOpts) (stats : StatsOpts) : ScrapeOpts × StatsOpts :=
  let scrape := { scrape with TimeProjects := fallbackToDefault scrape.TimeProjects scrape.Time }
  let scrape := { scrape with TimeRepository := fallbackToDefault scrape.TimeRepository scrape.Time }
  let scrape := { scrape with TimePullRequest := fallbackToDefault scrape.TimePullRequest scrape.Time }
  let scrape := { scrape with TimeBuild := fallbackToDefault scrape.TimeBuild scrape.Time }
  let scrape := { scrape with TimeRelease := fallbackToDefault scrape.TimeRelease scrape.Time }
  let scrape := { scrape with TimeDeployment := fallbackToDefault scrape.TimeDeployment scrape.Time }
  let scrape := { scrape with TimeStats := fallbackToDefault scrape.TimeStats scrape.Time }
  let scrape := { scrape with TimeResourceUsage := fallbackToDefault scrape.TimeResourceUsage scrape.Time }
  let stats := { stats with SummaryMaxAge :=
    match stats.SummaryMaxAge with
    | none => scrape.TimeStats
    | some v => some v }
  let scrape := { scrape with TimeQuery := fallbackToDefault scrape.TimeQuery scrape.Time }
  (scrape, stats)

/-- Whether a character is trimmed by `strings.TrimSpace` (ASCII subset). -/
def isSpaceChar (c : Char) : Bool :=
  c == ' ' || c == '\t' || c == '\n' || c == '\r'

/-- `strings.TrimSpace`: drop leading and trailing whitespace. -/
def trimSpace (s : String) : String :=
  String.mk (((s.toList.dropWhile isSpaceChar).reverse.dropWhile isSpaceChar).reverse)

/-- Outcome of the access-token block of `initArgparser`: either the process
panics (aborts) or continues with the resolved credential. -/
inductive TokenResult
  | panic
  | token (value : String)
deriving DecidableEq

/-- The token-sourcing part of the access-token block of `initArgparser`:
when a non-empty token-file path is configured, the credential becomes the
file content trimmed of surrounding whitespace, and an unreadable file gives
`none` (the Go code panics there); otherwise the configured value is kept.
`readFile` returns the file content or `none` on a read error. -/
def sourcedAccessToken (accessTokenFile : Option String) (readFile : String → Option String)
    (accessToken : String) : Option String :=
  match accessTokenFile with
  | some filePath =>
    if 0 < filePath.length then
      match readFile filePath with
      | some contents => some (trimSpace contents)
      | none => none
    else some accessToken
  | none => some accessToken

/-- The access-token block of `initArgparser` as a whole: source the
credential, panic on a read error, then panic when the credential is empty. -/
def resolveAccessToken (accessTokenFile : Option String) (readFile : String → Option String)
    (accessToken : String) : TokenResult :=
  match sourcedAccessToken accessTokenFile readFile accessToken with
  | none => .panic
  | some t => if t = "" then .panic else .token t

/-- Result of `argparser.Parse()` as seen by `initArgparser`. -/
inductive ParseResult
  | success
  | errHelp
  | errOther
deriving DecidableEq

/-- What `initArgparser` does with a parse result: exit (with code and
whether usage text was printed first) or continue startup. -/
inductive ArgOutcome
  | exited (code : Nat) (usagePrinted : Bool)
  | continued
deriving DecidableEq

/-- The parse-error branch of `initArgparser`: a help request exits 0, any
other parse error prints the usage text and exits 1, success continues. -/
def initArgparserOutcome : ParseResult → ArgOutcome
  | .errHelp => .exited 0 false
  | .errOther => .exited 1 true
  | .success => .continued

/-- The observable process state the health handlers could in principle read:
backend reachability, collector activity and the current Registry. -/
structure ExporterState where
  backendHealthy : Bool
  collectorsRunning : Bool
  registry : Registry
deriving DecidableEq

/-- An inbound HTTP request (the handlers ignore it entirely). -/
structure HttpRequest where
  path : String
deriving DecidableEq

/-- An HTTP response: status code and body. -/
structure HttpResponse where
  status : Nat
  body : String
deriving DecidableEq

/-- The `/healthz` handler of `startHttpServer`: writes the constant body
`Ok`; net/http defaults the status to 200 on first write. -/
def healthzHandler (_ : ExporterState) (_ : HttpRequest) : HttpResponse :=
  { status := 200, body := "Ok" }

/-- The `/readyz` handler of `startHttpServer`: identical constant response. -/
def readyzHandler (_ : ExporterState) (_ : HttpRequest) : HttpResponse :=
  { status := 200, body := "Ok" }

/-- The resolved scrape intervals read by `initMetricCollector` (after
`initArgparser` resolved every optional interval; durations as `Int`, so
`Seconds() > 0` becomes `0 < t`). -/
structure ScrapeIntervals where
  TimeLive : Int
  TimeRepository : Int
  TimePullRequest : Int
  TimeBuild : Int
  TimeRelease : Int
  TimeDeployment : Int
  TimeStats : Int
  TimeResourceUsage : Int
  TimeQuery : Int
deriving DecidableEq

/-- Which collector map of `initMetricCollector` an entry belongs to. -/
inductive CollectorKind
  | general
  | project
  | agentPool
  | query
deriving DecidableEq

/-- Outcome of one `initMetricCollector` block: the collector is created with
`SetScrapeTime(interval)` and later started by `Run()`, or only logged as
disabled. -/
inductive CollectorInit
  | enabled (scrapeTime : Int)
  | disabled
deriving DecidableEq

/-- One `if interval.Seconds() > 0 { create + SetScrapeTime } else { log
disabled }` block of `initMetricCollector`. -/
def collectorEntry (scrapeTime : Int) : CollectorInit :=
  if 0 < scrapeTime then .enabled scrapeTime else .disabled

/-- `initMetricCollector`, block by block in source order: each named
collector is enabled with the interval whose `Seconds() > 0` test its block
performs (note the General/Project/AgentPool/LatestBuild blocks all test
`TimeLive`), or logged as disabled. -/
def initMetricCollector (scrape : ScrapeIntervals) :
    List (String × CollectorKind × CollectorInit) :=
  [("General", .general, collectorEntry scrape.TimeLive),
   ("Project", .project, collectorEntry scrape.TimeLive),
   ("AgentPool", .agentPool, collectorEntry scrape.TimeLive),
   ("LatestBuild", .project, collectorEntry scrape.TimeLive),
   ("Repository", .project, collectorEntry scrape.TimeRepository),
   ("PullRequest", .project, collectorEntry scrape.TimePullRequest),
   ("Build", .project, collectorEntry scrape.TimeBuild),
   ("Release", .project, collectorEntry scrape.TimeRelease),
   ("Deployment", .project, collectorEntry scrape.TimeDeployment),
   ("Stats", .project, collectorEntry scrape.TimeStats),
   ("ResourceUsage", .general, collectorEntry scrape.TimeResourceUsage),
   ("Query", .query, collectorEntry scrape.TimeQuery)]

/-- The collectors on which `initMetricCollector` ends up calling `Run()`:
exactly the entries placed into one of the four collector maps, with the
scrape time each was created with. -/
def startedCollectors (scrape : ScrapeIntervals) : List (String × Int) :=
  (initMetricCollector scrape).filterMap (fun entry =>
    match entry.2.2 with
    | .enabled scrapeTime => some (entry.1, scrapeTime)
    | .disabled => none)

/-- The interval option each `initMetricCollector` block tests and uses. -/
def intervalOf (scrape : ScrapeIntervals) (name : String) : Int :=
  match name with
  | "General" => scrape.TimeLive
  | "Project" => scrape.TimeLive
  | "AgentPool" => scrape.TimeLive
  | "LatestBuild" => scrape.TimeLive
  | "Repository" => scrape.TimeRepository
  | "PullRequest" => scrape.TimePullRequest
  | "Build" => scrape.TimeBuild
  | "Release" => scrape.TimeRelease
  | "Deployment" => scrape.TimeDeployment
  | "Stats" => scrape.TimeStats
  | "ResourceUsage" => scrape.TimeResourceUsage
  | "Query" => scrape.TimeQuery
  | _ => 0

/-- A concrete interval table for witnesses: every collector at 60 seconds. -/
def scrapeSixty : ScrapeIntervals :=
  { TimeLive := 60, TimeRepository := 60, TimePullRequest := 60, TimeBuild := 60
    TimeRelease := 60, TimeDeployment := 60, TimeStats := 60
    TimeResourceUsage := 60, TimeQuery := 60 }

/-- A concrete read-file table for the access-token witness. -/
def scenarioReadFile : String → Option String :=
  fun filePath => if filePath = "tokenfile" then some "  secret\n" else none

theorem fallbackToDefault_eq (x : Option Int) (d : Int) :
    fallbackToDefault x d = some (x.getD d) := by
  cases x <;> rfl

/-- C2: every state change the Deployment collector makes to the Registry is
expressed as a command pushed onto the apply queue: `Collect` itself leaves
the Registry untouched for every API behaviour and project, and a cycle's
Registry is exactly the reset state with the queued commands applied. -/
theorem Collect_registry_unchanged (api : Api) (project : Project)
    (projects : List Project) (registry : Registry) (errorCounter : Nat) :
    (MetricsCollectorDeployment.Collect api project registry).1 = registry
    ∧ (runCycle api projects registry errorCounter).1 =
        (projects.flatMap (fun p => (MetricsCollectorDeployment.Collect api p registry).2)).foldl
          applyCommand (MetricsCollectorDeployment.Reset registry) := by
  constructor
  · unfold MetricsCollectorDeployment.Collect
    split
    · rfl
    · split <;> rfl
  · rfl

/-- C7: a help request exits with status 0; any other parse failure prints
the usage text and exits with the non-zero status 1; on success parsing
returns and startup continues, and it continues only on success. -/
theorem initArgparserOutcome_spec :
    initArgparserOutcome ParseResult.errHelp = ArgOutcome.exited 0 false
    ∧ initArgparserOutcome ParseResult.errOther = ArgOutcome.exited 1 true
    ∧ (1 : Nat) ≠ 0
    ∧ initArgparserOutcome ParseResult.success = ArgOutcome.continued
    ∧ ∀ r, initArgparserOutcome r = ArgOutcome.continued ↔ r = ParseResult.success := by
  refine ⟨rfl, rfl, by decide, rfl, ?_⟩
  intro r
  cases r <;> simp [initArgparserOutcome]

/-- C8: `GET /healthz` and `GET /readyz` answer the constant body `Ok` with
the fixed status 200 on every request, independent of the exporter state
(backend health, collectors, Registry). -/
theorem healthz_readyz_constant (s1 s2 : ExporterState) (r1 r2 : HttpRequest) :
    healthzHandler s1 r1 = { status := 200, body := "Ok" }
    ∧ readyzHandler s1 r1 = { status := 200, body := "Ok" }
    ∧ healthzHandler s1 r1 = healthzHandler s2 r2
    ∧ readyzHandler s1 r1 = readyzHandler s2 r2 :=
  ⟨rfl, rfl, rfl, rfl⟩

/-- C5: `initArgparser` resolves every unset per-collector scrape interval to
the one shared default `opts.Scrape.Time` (a set interval is kept), after
resolution no interval option is unset, and re-resolving the resolved options
changes nothing. -/
theorem resolveScrapeTimes_spec (scrape : ScrapeOpts) (stats : StatsOpts) :
    (resolveScrapeTimes scrape stats).1.Time = scrape.Time
    ∧ (resolveScrapeTimes scrape stats).1.TimeProjects = some (scrape.TimeProjects.getD scrape.Time)
    ∧ (resolveScrapeTimes scrape stats).1.TimeRepository = some (scrape.TimeRepository.getD scrape.Time)
    ∧ (resolveScrapeTimes scrape stats).1.TimePullRequest = some (scrape.TimePullRequest.getD scrape.Time)
    ∧ (resolveScrapeTimes scrape stats).1.TimeBuild = some (scrape.TimeBuild.getD scrape.Time)
    ∧ (resolveScrapeTimes scrape stats).1.TimeRelease = some (scrape.TimeRelease.getD scrape.Time)
    ∧ (resolveScrapeTimes scrape stats).1.TimeDeployment = some (scrape.TimeDeployment.getD scrape.Time)
    ∧ (resolveScrapeTimes scrape stats).1.TimeStats = some (scrape.TimeStats.getD scrape.Time)
    ∧ (resolveScrapeTimes scrape stats).1.TimeResourceUsage = some (scrape.TimeResourceUsage.getD scrape.Time)
    ∧ (resolveScrapeTimes scrape stats).1.TimeQuery = some (scrape.TimeQuery.getD scrape.Time)
    ∧ resolveScrapeTimes (resolveScrapeTimes scrape stats).1 (resolveScrapeTimes scrape stats).2
        = resolveScrapeTimes scrape stats := by
  obtain ⟨sma⟩ := stats
  refine ⟨rfl, fallbackToDefault_eq _ _, fallbackToDefault_eq _ _, fallbackToDefault_eq _ _,
    fallbackToDefault_eq _ _, fallbackToDefault_eq _ _, fallbackToDefault_eq _ _,
    fallbackToDefault_eq _ _, fallbackToDefault_eq _ _, fallbackToDefault_eq _ _, ?_⟩
  cases sma <;> simp [resolveScrapeTimes, fallbackToDefault_eq]

/-- C6: with a token-file path configured, the credential becomes the file
content trimmed of surrounding whitespace (subject to the final emptiness
check), and the process never continues with an empty credential. -/
theorem resolveAccessToken_spec (accessTokenFile : Option String)
    (readFile : String → Option String) (accessToken filePath contents : String)
    (hfile : accessTokenFile = some filePath) (hpath : 0 < filePath.length)
    (hread : readFile filePath = some contents) :
    resolveAccessToken accessTokenFile readFile accessToken =
      (if trimSpace contents = "" then TokenResult.panic
       else TokenResult.token (trimSpace contents))
    ∧ ∀ (file : Option String) (fs : String → Option String) (tok t : String),
        resolveAccessToken file fs tok = TokenResult.token t → t ≠ "" := by
  constructor
  · subst hfile
    simp [resolveAccessToken, sourcedAccessToken, hread, hpath]
  · intro file fs tok t h
    unfold resolveAccessToken at h
    cases hs : sourcedAccessToken file fs tok with
    | none => rw [hs] at h; cases h
    | some s =>
      rw [hs] at h
      have h2 : (if s = "" then TokenResult.panic else TokenResult.token s) = TokenResult.token t := h
      by_cases hempty : s = ""
      · rw [if_pos hempty] at h2; cases h2
      · rw [if_neg hempty] at h2
        injection h2 with ht
        rw [← ht]
        exact hempty

/-- C6 witness: a configured token file holding whitespace-padded content
resolves to the trimmed credential. -/
theorem resolveAccessToken_spec_witness :
    resolveAccessToken (some "tokenfile") scenarioReadFile "" = TokenResult.token "secret" := by
  have h := (resolveAccessToken_spec (some "tokenfile") scenarioReadFile "" "tokenfile"
    "  secret\n" rfl (by decide) (by decide)).1
  rw [h]
  decide

/-- C4: the query-descriptor check aborts startup exactly when some
descriptor does not contain exactly one `@` delimiter; in particular a
descriptor missing the delimiter aborts (with at least one message printed),
and when startup proceeds past the check every descriptor has the delimiter
exactly once. -/
theorem checkQueriesWithProjects_spec (queries : List String) :
    ((checkQueriesWithProjects (some queries)).2 = true ↔ ∃ q ∈ queries, countChar q '@' ≠ 1)
    ∧ ((∃ q ∈ queries, countChar q '@' = 0) →
        (checkQueriesWithProjects (some queries)).2 = true
        ∧ 0 < (checkQueriesWithProjects (some queries)).1)
    ∧ ((checkQueriesWithProjects (some queries)).2 = false →
        ∀ q ∈ queries, countChar q '@' = 1) := by
  have hmain : (checkQueriesWithProjects (some queries)).2 = true ↔
      ∃ q ∈ queries, countChar q '@' ≠ 1 := by
    simp [checkQueriesWithProjects, List.isEmpty_iff, List.filter_eq_nil_iff]
  have hlen : (0 < (checkQueriesWithProjects (some queries)).1) ↔
      ∃ q ∈ queries, countChar q '@' ≠ 1 := by
    simp [checkQueriesWithProjects, List.length_pos, List.filter_eq_nil_iff]
  refine ⟨hmain, ?_, ?_⟩
  · rintro ⟨q, hq, hcount⟩
    have hne : countChar q '@' ≠ 1 := by omega
    exact ⟨hmain.mpr ⟨q, hq, hne⟩, hlen.mpr ⟨q, hq, hne⟩⟩
  · intro hfalse q hq
    by_contra hne
    rw [hmain.mpr ⟨q, hq, hne⟩] at hfalse
    cases hfalse

/-- C4 witness: one descriptor without any `@` makes the check abort after
printing a message. -/
theorem checkQueriesWithProjects_spec_witness :
    (checkQueriesWithProjects (some ["abc"])).2 = true
    ∧ 0 < (checkQueriesWithProjects (some ["abc"])).1 :=
  (checkQueriesWithProjects_spec ["abc"]).2.1 ⟨"abc", by decide, by decide⟩

/-- C9: per deployment record, a queued/started/finished timestamp row is in
the status batch exactly when the corresponding time on the record is
present, and a jobDuration row is in the batch exactly when both the started
and completed times are present, its value the completed minus the started
time. -/
theorem deploymentStatusRows_spec (projectId : String) (deployment : Deployment) :
    (∀ t : Int,
      ({ projectID := projectId, deploymentID := int64ToString deployment.Id, type := "queued" },
         t) ∈ deploymentStatusRows projectId deployment ↔ deployment.QueuedOn = some t)
    ∧ (∀ t : Int,
      ({ projectID := projectId, deploymentID := int64ToString deployment.Id, type := "started" },
         t) ∈ deploymentStatusRows projectId deployment ↔ deployment.StartedOn = some t)
    ∧ (∀ t : Int,
      ({ projectID := projectId, deploymentID := int64ToString deployment.Id, type := "finished" },
         t) ∈ deploymentStatusRows projectId deployment ↔ deployment.CompletedOn = some t)
    ∧ (∀ v : Int,
      ({ projectID := projectId, deploymentID := int64ToString deployment.Id, type := "jobDuration" },
         v) ∈ deploymentStatusRows projectId deployment ↔
        ∃ startedOn completedOn, deployment.StartedOn = some startedOn
          ∧ deployment.CompletedOn = some completedOn ∧ v = completedOn - startedOn) := by
  obtain ⟨dId, dRel, drb, dnm, dds, dos, drsn, datt, denv, dab, qOn, sOn, cOn⟩ := deployment
  refine ⟨fun t => ?_, fun t => ?_, fun t => ?_, fun t => ?_⟩ <;>
    cases qOn <;> cases sOn <;> cases cOn <;>
      simp [deploymentStatusRows, DeploymentStatusLabels.mk.injEq, eq_comm]

/-- C1 counterexample: in the §8 scenario (API: 2 records for A, 0 for B, an
error for C) with a Registry previously holding an entry for C, the claimed
after-cycle state — 2 entries for A, empty for B, C keeping its
previously-held entries, error counter incremented — does not hold: the
apply phase resets every family and C, having queued no command, is empty. -/
theorem runCycle_scenario_keeps_no_entries_for_errored_project :
    ¬ ((deploymentEntriesFor (runCycle scenarioApi scenarioProjects scenarioPrevRegistry 0).1 "A").length = 2
       ∧ deploymentEntriesFor (runCycle scenarioApi scenarioProjects scenarioPrevRegistry 0).1 "B" = []
       ∧ deploymentEntriesFor (runCycle scenarioApi scenarioProjects scenarioPrevRegistry 0).1 "C"
           = deploymentEntriesFor scenarioPrevRegistry "C"
       ∧ (runCycle scenarioApi scenarioProjects scenarioPrevRegistry 0).2 = 0 + 1) := by
  decide

/-- C1 (amended): after one cycle over projects A, B, C where the API returns
2 records for A, 0 for B and an error for C, the Registry holds 2 entries for
A, none for B and none for C — whatever it held before the cycle — and the
error counter is incremented by one. -/
theorem runCycle_scenario_after_cycle (registry : Registry) (errorCounter : Nat) :
    (deploymentEntriesFor (runCycle scenarioApi scenarioProjects registry errorCounter).1 "A").length = 2
    ∧ deploymentEntriesFor (runCycle scenarioApi scenarioProjects registry errorCounter).1 "B" = []
    ∧ deploymentEntriesFor (runCycle scenarioApi scenarioProjects registry errorCounter).1 "C" = []
    ∧ (runCycle scenarioApi scenarioProjects registry errorCounter).2 = errorCounter + 1 :=
  ⟨rfl, rfl, rfl, rfl⟩

theorem collectReleaseDefinitions_isError (api : Api) (projectId : String)
    (defs : List ReleaseDefinition) (dm : List (DeploymentLabels × Int))
    (dsm : List (DeploymentStatusLabels × Int)) :
    (∃ e, collectReleaseDefinitions api projectId defs dm dsm = .error e) ↔
      ∃ releaseDefinition ∈ defs,
        ∃ e, api.ListReleaseDeployments projectId releaseDefinition.Id = .error e := by
  induction defs generalizing dm dsm with
  | nil => simp [collectReleaseDefinitions]
  | cons releaseDefinition rest ih =>
    cases h : api.ListReleaseDeployments projectId releaseDefinition.Id with
    | error e0 =>
      simp only [collectReleaseDefinitions, h]
      exact iff_of_true ⟨e0, rfl⟩ ⟨releaseDefinition, List.mem_cons_self _ _, e0, h⟩
    | ok deploymentList =>
      simp only [collectReleaseDefinitions, h, ih, List.mem_cons]
      constructor
      · rintro ⟨rd, hrd, e, he⟩
        exact ⟨rd, Or.inr hrd, e, he⟩
      · rintro ⟨rd, hrd | hrd, e, he⟩
        · rw [hrd] at he
          rw [h] at he
          cases he
        · exact ⟨rd, hrd, e, he⟩

/-- C3: when any API call for one project fails — listing its release
definitions or listing the deployments of one of its release definitions —
`Collect` queues nothing for it (the error is logged and the project skipped
for the cycle), and removing the failed project from the cycle leaves the
applied Registry unchanged — sibling collection and apply are unaffected —
while the error counter counts exactly that one extra failure. -/
theorem Collect_error_isolated (api : Api) (project : Project) (registry : Registry)
    (siblingsBefore siblingsAfter : List Project) (errorCounter : Nat)
    (herr : (∃ e, api.ListReleaseDefinitions project.Id = .error e)
      ∨ ∃ list, api.ListReleaseDefinitions project.Id = .ok list
          ∧ ∃ releaseDefinition ∈ list,
              ∃ e, api.ListReleaseDeployments project.Id releaseDefinition.Id = .error e) :
    MetricsCollectorDeployment.Collect api project registry = (registry, [])
    ∧ collectErrored api project = true
    ∧ (runCycle api (siblingsBefore ++ project :: siblingsAfter) registry errorCounter).1
        = (runCycle api (siblingsBefore ++ siblingsAfter) registry errorCounter).1
    ∧ (runCycle api (siblingsBefore ++ project :: siblingsAfter) registry errorCounter).2
        = (runCycle api (siblingsBefore ++ siblingsAfter) registry errorCounter).2 + 1 := by
  have hc : MetricsCollectorDeployment.Collect api project registry = (registry, []) := by
    rcases herr with ⟨e, he⟩ | ⟨list, hok, hin⟩
    · simp [MetricsCollectorDeployment.Collect, he]
    · obtain ⟨e, he2⟩ := (collectReleaseDefinitions_isError api project.Id list [] []).mpr hin
      simp [MetricsCollectorDeployment.Collect, hok, he2]
  have he : collectErrored api project = true := by
    rcases herr with ⟨e, he⟩ | ⟨list, hok, hin⟩
    · simp [collectErrored, he]
    · obtain ⟨e, he2⟩ := (collectReleaseDefinitions_isError api project.Id list [] []).mpr hin
      simp [collectErrored, hok, he2]
  refine ⟨hc, he, ?_, ?_⟩
  · simp [runCycle, List.flatMap_append, hc]
  · simp [runCycle, List.countP_append, List.countP_cons, he]
    omega

/-- C3 witness: in a concrete cycle where the deployments call inside project
D fails, dropping D from the cycle changes nothing but the error count. -/
theorem Collect_error_isolated_witness :
    (runCycle scenarioApiInner
        ([{ Id := "A", Name := "project-a" }] ++
          { Id := "D", Name := "project-d" } :: [{ Id := "B", Name := "project-b" }])
        scenarioPrevRegistry 0).2
      = (runCycle scenarioApiInner
          ([{ Id := "A", Name := "project-a" }] ++ [{ Id := "B", Name := "project-b" }])
          scenarioPrevRegistry 0).2 + 1 :=
  (Collect_error_isolated scenarioApiInner { Id := "D", Name := "project-d" }
    scenarioPrevRegistry
    [{ Id := "A", Name := "project-a" }] [{ Id := "B", Name := "project-b" }] 0
    (Or.inr ⟨[{ Id := 2, Name := "def-2" }], rfl, { Id := 2, Name := "def-2" },
      by decide, "list release deployments failed", rfl⟩)).2.2.2

theorem mem_startedCollectors (scrape : ScrapeIntervals) (n : String) (i : Int) :
    (n, i) ∈ startedCollectors scrape ↔
      ∃ entry ∈ initMetricCollector scrape, entry.1 = n ∧ entry.2.2 = CollectorInit.enabled i := by
  simp only [startedCollectors, List.mem_filterMap]
  constructor
  · rintro ⟨entry, hmem, hf⟩
    cases he : entry.2.2 with
    | enabled s =>
      rw [he] at hf
      simp only [Option.some.injEq, Prod.mk.injEq] at hf
      exact ⟨entry, hmem, hf.1, by rw [he, hf.2]⟩
    | disabled =>
      rw [he] at hf
      cases hf
  · rintro ⟨entry, hmem, hn, he⟩
    refine ⟨entry, hmem, ?_⟩
    rw [he]
    simp [hn]

theorem initMetricCollector_name_inj (scrape : ScrapeIntervals) :
    ∀ e1 ∈ initMetricCollector scrape, ∀ e2 ∈ initMetricCollector scrape,
      e1.1 = e2.1 → e1 = e2 := by
  intro e1 h1 e2 h2 hname
  simp only [initMetricCollector, List.mem_cons, List.not_mem_nil, or_false] at h1 h2
  rcases h1 with h1|h1|h1|h1|h1|h1|h1|h1|h1|h1|h1|h1 <;>
    rcases h2 with h2|h2|h2|h2|h2|h2|h2|h2|h2|h2|h2|h2 <;>
      subst h1 <;> subst h2 <;> first | rfl | simp at hname

/-- C10: every collector `initMetricCollector` enables is created with a
positive scrape interval and started; a collector whose tested interval is
zero or fewer seconds is only logged as disabled and never started; each
block's outcome is determined by its own interval option, enabled exactly
when that interval is positive. -/
theorem initMetricCollector_spec (scrape : ScrapeIntervals) :
    (∀ n k i, (n, k, CollectorInit.enabled i) ∈ initMetricCollector scrape →
        0 < i ∧ (n, i) ∈ startedCollectors scrape)
    ∧ (∀ n k, (n, k, CollectorInit.disabled) ∈ initMetricCollector scrape →
        intervalOf scrape n ≤ 0 ∧ ∀ i, (n, i) ∉ startedCollectors scrape)
    ∧ (∀ entry ∈ initMetricCollector scrape,
        entry.2.2 = collectorEntry (intervalOf scrape entry.1))
    ∧ (∀ i : Int, (collectorEntry i = CollectorInit.disabled ↔ i ≤ 0)
        ∧ (0 < i → collectorEntry i = CollectorInit.enabled i)) := by
  refine ⟨?_, ?_, ?_, ?_⟩
  · intro n k i h
    refine ⟨?_, (mem_startedCollectors scrape n i).2 ⟨(n, k, CollectorInit.enabled i), h, rfl, rfl⟩⟩
    simp only [initMetricCollector, List.mem_cons, List.not_mem_nil, or_false] at h
    rcases h with h|h|h|h|h|h|h|h|h|h|h|h <;>
      · injection h with hn h
        injection h with hk h2
        unfold collectorEntry at h2
        split at h2
        · injection h2 with hi
          subst hi
          assumption
        · cases h2
  · intro n k h
    have hiv : intervalOf scrape n ≤ 0 := by
      simp only [initMetricCollector, List.mem_cons, List.not_mem_nil, or_false] at h
      rcases h with h|h|h|h|h|h|h|h|h|h|h|h <;>
        · injection h with hn h
          injection h with hk h2
          subst hn
          unfold collectorEntry at h2
          split at h2
          · cases h2
          · exact Int.not_lt.mp (by assumption)
    refine ⟨hiv, ?_⟩
    intro i hi
    rw [mem_startedCollectors] at hi
    obtain ⟨entry, hentry, hn, he⟩ := hi
    have heq := initMetricCollector_name_inj scrape entry hentry
      (n, k, CollectorInit.disabled) h (by rw [hn])
    rw [heq] at he
    cases he
  · intro entry h
    simp only [initMetricCollector, List.mem_cons, List.not_mem_nil, or_false] at h
    rcases h with h|h|h|h|h|h|h|h|h|h|h|h <;> subst h <;> rfl
  · intro i
    refine ⟨⟨?_, ?_⟩, ?_⟩
    · intro hdis
      unfold collectorEntry at hdis
      split at hdis
      · cases hdis
      · exact Int.not_lt.mp (by assumption)
    · intro hle
      unfold collectorEntry
      split
      · exact absurd hle (by omega)
      · rfl
    · intro hpos
      unfold collectorEntry
      split
      · rfl
      · exact absurd hpos (by assumption)

/-- C10 witness: with every interval at 60, the Deployment collector is
created with interval 60 and started. -/
theorem initMetricCollector_spec_witness :
    0 < (60:Int) ∧ ("Deployment", (60:Int)) ∈ startedCollectors scrapeSixty :=
  (initMetricCollector_spec scrapeSixty).1 "Deployment" CollectorKind.project 60 (by decide)
